import Mathlib

/-!
Verification development for the Command/Plugin core of the decoder-plus-plus
repository (files core/command/command.py, core/plugin/abstract_plugin.py,
core/logging/log_entry.py), shallowly embedded in Lean 4.

Modelling conventions:
* Python values that may be a string or None are modelled as Option String
  (none models Python None).
* A Python callable with side effects is modelled as a state-transformer over
  an arbitrary world type sigma: it receives the positional arguments, the
  keyword arguments and the current world, and returns the new world together
  with its result.
* Assertion failures and raised exceptions are modelled with Except String.
-/

/-- Positional arguments of a Python call (usually the input text). -/
def Args : Type := List String

/-- Keyword arguments of a Python call, modelled as an association list. -/
def Kwargs : Type := List (String × String)

/-- Result value of a Python hook: a string, or none for Python None. -/
def PyVal : Type := Option String

/-- A Python callable with side effects on a world of type sigma. -/
def Callable (σ ρ : Type) : Type := Args → Kwargs → σ → σ × ρ

/-- Python str.capitalize(): first character upper-cased, the rest lower-cased;
the empty string is unchanged. -/
def pyCapitalize (s : String) : String :=
  match s.toList with
  | [] => ""
  | c :: cs => String.mk (c.toUpper :: cs.map Char.toLower)


/-! ## core/command/command.py : class Command -/

/-- The four type tags of Command.Type (command.py lines 27-32). -/
def Command.Type.DECODER : String := "Decoder"

def Command.Type.ENCODER : String := "Encoder"

def Command.Type.HASHER : String := "Hasher"

def Command.Type.SCRIPT : String := "Script"

/-- class Command (command.py lines 25-89): a name, a type tag, an author and
three behavior hooks.  The fields mirror the attributes set in __init__;
strings that Python may leave as None are Option String. -/
structure Command (σ : Type) where
  _name : Option String
  _type : Option String
  _author : Option String
  _title_method : σ → σ × String
  _run_method : Callable σ PyVal
  _select_method : Callable σ PyVal

/-- Command.name (command.py line 43). -/
def Command.name (c : Command σ) : Option String := c._name

/-- Command.type (command.py line 47). -/
def Command.type (c : Command σ) : Option String := c._type

/-- Command.title (command.py line 51): invokes the stored title hook. -/
def Command.title (c : Command σ) (s : σ) : σ × String := c._title_method s

/-- Command.author (command.py line 59). -/
def Command.author (c : Command σ) : Option String := c._author

/-- Command.select (command.py line 65): return self._select_method(*args) —
the stored select hook is invoked with the positional arguments only; the
keyword arguments of the call are discarded. -/
def Command.select (c : Command σ) (args : Args) (_kwargs : Kwargs) (s : σ) :
    σ × PyVal := c._select_method args [] s

/-- Command.run (command.py line 74): return self._run_method(*args) — the
stored run hook is invoked with the positional arguments only; the keyword
arguments of the call are discarded. -/
def Command.run (c : Command σ) (args : Args) (_kwargs : Kwargs) (s : σ) :
    σ × PyVal := c._run_method args [] s

/-- Command.__key (command.py line 82): the tuple (self._name, self._type). -/
def Command.key (c : Command σ) : Option String × Option String :=
  (c._name, c._type)

/-- Command.__eq__ (command.py line 85): structural equality of the keys. -/
def Command.eq (x y : Command σ) : Bool := x.key == y.key

/-- Command.__hash__ (command.py line 88): hash(self.__key()).  Python string
hashing is process-dependent, so the hash function H on keys is a parameter. -/
def Command.hashWith (H : Option String × Option String → Nat)
    (c : Command σ) : Nat := H c.key

/-! ## core/command/command.py : class Command.Builder -/

/-- class Command.Builder (command.py lines 91-138).  All six attributes start
out as Python None (command.py lines 93-99). -/
structure Command.Builder (σ : Type) where
  _name : Option String
  _type : Option String
  _author : Option String
  _run_method : Option (Callable σ PyVal)
  _select_method : Option (Callable σ PyVal)
  _title_method : Option (σ → σ × String)

/-- Command.Builder.__init__ (command.py line 93): every field is None. -/
def Command.Builder.new (σ : Type) : Command.Builder σ :=
  ⟨none, none, none, none, none, none⟩

/-- Command.Builder.name setter (command.py line 101). -/
def Command.Builder.name (b : Command.Builder σ) (n : String) :
    Command.Builder σ :=
  ⟨some n, b._type, b._author, b._run_method, b._select_method, b._title_method⟩

/-- Command.Builder.type setter (command.py line 105). -/
def Command.Builder.type (b : Command.Builder σ) (t : String) :
    Command.Builder σ :=
  ⟨b._name, some t, b._author, b._run_method, b._select_method, b._title_method⟩

/-- Command.Builder.author setter (command.py line 109). -/
def Command.Builder.author (b : Command.Builder σ) (a : String) :
    Command.Builder σ :=
  ⟨b._name, b._type, some a, b._run_method, b._select_method, b._title_method⟩

/-- Command.Builder.title setter (command.py line 113). -/
def Command.Builder.title (b : Command.Builder σ) (f : σ → σ × String) :
    Command.Builder σ :=
  ⟨b._name, b._type, b._author, b._run_method, b._select_method, some f⟩

/-- Command.Builder.run setter (command.py line 117). -/
def Command.Builder.run (b : Command.Builder σ) (f : Callable σ PyVal) :
    Command.Builder σ :=
  ⟨b._name, b._type, b._author, some f, b._select_method, b._title_method⟩

/-- Command.Builder.select setter (command.py line 121). -/
def Command.Builder.select (b : Command.Builder σ) (f : Callable σ PyVal) :
    Command.Builder σ :=
  ⟨b._name, b._type, b._author, b._run_method, some f, b._title_method⟩

/-- The local _select_method closure of build (command.py lines 132-133):
def _select_method(*args, **kwargs): self._run_method(*args) — it invokes the
run hook with its positional arguments only (empty keyword arguments) and
returns None, discarding the run hook's result. -/
def Command.Builder.defaultSelect (run : Callable σ PyVal) : Callable σ PyVal :=
  fun args _kwargs s => ((run args [] s).1, none)

/-- The default title lambda of build (command.py line 137):
lambda: "{} {}".format(self._name, self._type.capitalize()). -/
def Command.Builder.defaultTitle (n t : String) : σ → σ × String :=
  fun s => (s, n ++ " " ++ pyCapitalize t)

/-- Command.Builder.build (command.py lines 125-138): asserts that the name is
neither None nor empty, that the type is not None and that the run method is
not None (in that order), supplies the default select and title hooks when
those are unset, and constructs the Command. -/
def Command.Builder.build (b : Command.Builder σ) : Except String (Command σ) :=
  match b._name with
  | none => .error "Name is required and should not be None or Empty."
  | some n =>
    if n.length > 0 then
      match b._type with
      | none => .error "Type is required and should not be None."
      | some t =>
        match b._run_method with
        | none => .error "Run method or run source is required and should not be None."
        | some run =>
          let sel := match b._select_method with
            | none => Command.Builder.defaultSelect run
            | some f => f
          let ttl := match b._title_method with
            | none => Command.Builder.defaultTitle n t
            | some f => f
          .ok ⟨some n, some t, b._author, ttl, run, sel⟩
    else .error "Name is required and should not be None or Empty."

/-! ## core/command/command.py : class NullCommand -/

/-- class NullCommand (command.py lines 141-151): a Command whose name, type
and author are the empty string, whose title hook returns the empty string,
and whose run and select are overridden to do nothing (Python pass: no world
change, result None).  Since the overridden bound methods are exactly what
__init__ stores as the hooks, the hooks are the no-ops. -/
def NullCommand (σ : Type) : Command σ :=
  ⟨some "", some "", some "",
   fun s => (s, ""),
   fun _ _ s => (s, none),
   fun _ _ s => (s, none)⟩

/-! ## Python string helpers used by abstract_plugin.py -/

/-- Python truthiness of a possibly-None string combined with a length check:
x is not None and len(x) > 0. -/
def pyNonEmpty : Option String → Bool
  | none => false
  | some s => s.length > 0

/-- The line-boundary characters of Python str.splitlines. -/
def isPyLineBreak (c : Char) : Bool :=
  c = '\n' || c = '\r' || c = Char.ofNat 0x0b || c = Char.ofNat 0x0c ||
  c = Char.ofNat 0x1c || c = Char.ofNat 0x1d || c = Char.ofNat 0x1e ||
  c = Char.ofNat 0x85 || c = Char.ofNat 0x2028 || c = Char.ofNat 0x2029

/-- Python str.splitlines treats a carriage-return/line-feed pair as a single
boundary; this pass contracts each such pair to a lone line feed. -/
def normalizeCRLF : List Char → List Char
  | [] => []
  | '\r' :: '\n' :: rest => '\n' :: normalizeCRLF rest
  | c :: rest => c :: normalizeCRLF rest

/-- Worker for Python str.splitlines: accumulates the current line (reversed)
and cuts at each line boundary; a trailing boundary does not open a new empty
line. -/
def pySplitlinesGo : List Char → List Char → List (List Char)
  | [], acc => [acc.reverse]
  | c :: rest, acc =>
    if isPyLineBreak c then
      acc.reverse :: (if rest.isEmpty then [] else pySplitlinesGo rest [])
    else pySplitlinesGo rest (c :: acc)

/-- Python str.splitlines(): the empty string yields no lines. -/
def pySplitlines (s : String) : List String :=
  if s.isEmpty then []
  else (pySplitlinesGo (normalizeCRLF s.toList) []).map String.mk


/-- Worker for Python str.split(" "): cuts at every single space character,
keeping empty parts. -/
def pySplitSpaceGo : List Char → List Char → List (List Char)
  | [], acc => [acc.reverse]
  | c :: rest, acc =>
    if c = ' ' then acc.reverse :: pySplitSpaceGo rest []
    else pySplitSpaceGo rest (c :: acc)

/-- Python str.split(" "): split on each single space, empty parts kept. -/
def pySplitSpace (s : String) : List String :=
  (pySplitSpaceGo s.toList []).map String.mk


/-! ## core/plugin/abstract_plugin.py : class AbstractPlugin -/

/-- class AbstractPlugin (abstract_plugin.py lines 25-105): name, type, author
and an optional dependency list, as set by __init__ after its asserts pass.
A concrete plugin class may override run, select or (for decoders)
can_be_decoded; an override is modelled as a some hook, the base behavior as
none. -/
structure AbstractPlugin (σ : Type) where
  _name : String
  _type : String
  _author : String
  _dependencies : Option (List String)
  runOverride : Option (Callable σ PyVal)
  selectOverride : Option (Callable σ PyVal)

/-- The type assert of AbstractPlugin.__init__ (abstract_plugin.py line 37):
type in [Command.Type.DECODER, ENCODER, HASHER, SCRIPT]; a Python None type is
in particular rejected. -/
def AbstractPlugin.typeOk (t : Option String) : Bool :=
  t == some Command.Type.DECODER || t == some Command.Type.ENCODER ||
  t == some Command.Type.HASHER || t == some Command.Type.SCRIPT

/-- AbstractPlugin.__init__ (abstract_plugin.py lines 28-43): asserts that the
name is neither None nor empty, that the type is one of the four recognized
tags, and that the author is neither None nor empty — in that order — then
stores the attributes.  The fresh plugin overrides nothing. -/
def AbstractPlugin.init (σ : Type) (name type author : Option String)
    (dependencies : Option (List String)) : Except String (AbstractPlugin σ) :=
  if pyNonEmpty name then
    if AbstractPlugin.typeOk type then
      if pyNonEmpty author then
        .ok ⟨name.getD "", type.getD "", author.getD "", dependencies,
             none, none⟩
      else .error "Author is required and should not be None or Empty"
    else .error "Type is required and should be either 'DECODER', 'ENCODER', 'HASHER' or 'SCRIPT'"
  else .error "Name is required and should not be None or Empty"

/-- AbstractPlugin.name (abstract_plugin.py line 45). -/
def AbstractPlugin.name (p : AbstractPlugin σ) : String := p._name

/-- AbstractPlugin.type (abstract_plugin.py line 49). -/
def AbstractPlugin.type (p : AbstractPlugin σ) : String := p._type

/-- AbstractPlugin.title (abstract_plugin.py line 53):
"{} {}".format(self._name, self._type.capitalize()). -/
def AbstractPlugin.title (p : AbstractPlugin σ) : String :=
  p._name ++ " " ++ pyCapitalize p._type

/-- AbstractPlugin.author (abstract_plugin.py line 57). -/
def AbstractPlugin.author (p : AbstractPlugin σ) : String := p._author

/-- AbstractPlugin.check_dependencies (abstract_plugin.py lines 61-73):
walks the declared dependencies when the list is truthy (neither None nor
empty), tries importlib.import_module on each — modelled by the external
resolver importModule — and appends each dependency whose import raised to the
result, catching the exception locally. -/
def AbstractPlugin.check_dependencies (importModule : String → Except String Unit)
    (p : AbstractPlugin σ) : List String :=
  match p._dependencies with
  | none => []
  | some deps =>
    if deps.isEmpty then []
    else deps.foldl (fun acc d =>
      match importModule d with
      | .ok _ => acc
      | .error _ => acc ++ [d]) []

/-- AbstractPlugin.run (abstract_plugin.py line 75): the base implementation
raises NotImplementedError; a concrete plugin's override is invoked with the
call's arguments. -/
def AbstractPlugin.run (p : AbstractPlugin σ) (args : Args) (kwargs : Kwargs)
    (s : σ) : Except String (σ × PyVal) :=
  match p.runOverride with
  | some f => .ok (f args kwargs s)
  | none => .error "Method must be implemented from upper class"

/-- AbstractPlugin.select (abstract_plugin.py line 90): the base
implementation is return self.run(*args) — it forwards the positional
arguments to run (dynamic dispatch) and discards the keyword arguments; an
override is invoked with the call's arguments. -/
def AbstractPlugin.select (p : AbstractPlugin σ) (args : Args) (kwargs : Kwargs)
    (s : σ) : Except String (σ × PyVal) :=
  match p.selectOverride with
  | some f => .ok (f args kwargs s)
  | none => p.run args [] s

/-- AbstractPlugin._run_lines (abstract_plugin.py lines 79-88), transcribed
loop by loop: for each line of text.splitlines() collect callback(part) for
the truthy parts of line.split(" "), join the parts with a single space, and
join the lines with os.linesep (an external value, passed as linesep). -/
def AbstractPlugin._run_lines (linesep : String) (text : String)
    (callback : String → String) : String :=
  String.intercalate linesep
    ((pySplitlines text).foldl (fun lines text_line =>
      lines ++ [String.intercalate " "
        ((pySplitSpace text_line).foldl (fun result text_part =>
          if text_part.length > 0 then result ++ [callback text_part]
          else result) [])]) [])

/-- AbstractPlugin.__key (abstract_plugin.py line 98). -/
def AbstractPlugin.key (p : AbstractPlugin σ) : String × String :=
  (p._name, p._type)

/-- AbstractPlugin.__eq__ (abstract_plugin.py line 101). -/
def AbstractPlugin.eq (x y : AbstractPlugin σ) : Bool := x.key == y.key

/-- AbstractPlugin.__hash__ (abstract_plugin.py line 104): hash(self.__key())
for a process-dependent hash function H on keys. -/
def AbstractPlugin.hashWith (H : String × String → Nat)
    (p : AbstractPlugin σ) : Nat := H p.key

/-! ## core/plugin/abstract_plugin.py : the four typed subtypes -/

/-- class DecoderPlugin (abstract_plugin.py lines 108-125): an AbstractPlugin
plus the can_be_decoded probe, which a concrete decoder may override. -/
structure DecoderPlugin (σ : Type) where
  toAbstractPlugin : AbstractPlugin σ
  canBeDecodedOverride : Option (String → Bool)

/-- DecoderPlugin.__init__ (abstract_plugin.py line 110): delegates to
AbstractPlugin.__init__ with the type forced to Command.Type.DECODER; the
signature offers no type parameter.  A fresh decoder overrides nothing. -/
def DecoderPlugin.init (σ : Type) (name author : Option String)
    (dependencies : Option (List String)) : Except String (DecoderPlugin σ) :=
  (AbstractPlugin.init σ name (some Command.Type.DECODER) author
    dependencies).map (fun p => ⟨p, none⟩)

/-- DecoderPlugin.can_be_decoded (abstract_plugin.py line 119): the base
implementation returns False; an override is invoked instead. -/
def DecoderPlugin.can_be_decoded (p : DecoderPlugin σ) (input : String) :
    Bool :=
  match p.canBeDecodedOverride with
  | some f => f input
  | none => false

/-- EncoderPlugin.__init__ (abstract_plugin.py line 129): type forced to
Command.Type.ENCODER. -/
def EncoderPlugin.init (σ : Type) (name author : Option String)
    (dependencies : Option (List String)) : Except String (AbstractPlugin σ) :=
  AbstractPlugin.init σ name (some Command.Type.ENCODER) author dependencies

/-- HasherPlugin.__init__ (abstract_plugin.py line 141): type forced to
Command.Type.HASHER. -/
def HasherPlugin.init (σ : Type) (name author : Option String)
    (dependencies : Option (List String)) : Except String (AbstractPlugin σ) :=
  AbstractPlugin.init σ name (some Command.Type.HASHER) author dependencies

/-- ScriptPlugin.__init__ (abstract_plugin.py line 153): type forced to
Command.Type.SCRIPT. -/
def ScriptPlugin.init (σ : Type) (name author : Option String)
    (dependencies : Option (List String)) : Except String (AbstractPlugin σ) :=
  AbstractPlugin.init σ name (some Command.Type.SCRIPT) author dependencies

/-! ## core/logging/log_entry.py : class LogEntry -/

/-- class LogEntry: a pure data holder of time, type and message. -/
structure LogEntry where
  _time : String
  _type : String
  _message : String

/-! ## The spec's reading of run_lines, for comparison

The specification describes run_lines as splitting each line into
whitespace-separated tokens.  The following definitions follow the spec's
words (splitting on every whitespace character, as Python's argument-free
str.split does), to be compared against the source's behavior, which splits
on the space character only. -/

/-- Worker splitting at every whitespace character, keeping empty parts. -/
def splitWsGo : List Char → List Char → List (List Char)
  | [], acc => [acc.reverse]
  | c :: rest, acc =>
    if c.isWhitespace then acc.reverse :: splitWsGo rest []
    else splitWsGo rest (c :: acc)

/-- Splitting a line into whitespace-separated tokens: cut at every
whitespace character and drop the empty pieces. -/
def splitWhitespace (s : String) : List String :=
  (((splitWsGo s.toList []).filter (fun p => p ≠ [])).map String.mk)

/-- The run_lines transformation as the specification words it: split the
text into lines, split each line into whitespace-separated tokens, apply the
callback to each non-empty token, rejoin tokens with single spaces and lines
with the platform line separator. -/
def run_lines_specWs (linesep : String) (text : String)
    (callback : String → String) : String :=
  String.intercalate linesep ((pySplitlines text).map (fun line =>
    String.intercalate " " ((splitWhitespace line).map callback)))

/-! ## Concrete instances used to evaluate the development -/

/-- A sample world-changing run hook over the world Nat: it bumps a counter
and returns a string recording its positional arguments. -/
def sampleRun : Callable Nat PyVal :=
  fun args _kwargs s => (s + 1, some (String.intercalate "," args))

/-- A sample select hook distinguishable from sampleRun. -/
def sampleSelect : Callable Nat PyVal :=
  fun _args _kwargs s => (s + 7, some "selected")

/-- A sample module resolver: only the module named real_module resolves. -/
def sampleResolver (dep : String) : Except String Unit :=
  if dep = "real_module" then .ok () else .error "ModuleNotFoundError"

/-- A plugin declaring dependencies [real_module, nonexistent_xyz]. -/
def samplePluginDeps : AbstractPlugin Nat :=
  ⟨"Base64", "Decoder", "someone", some ["real_module", "nonexistent_xyz"],
   none, none⟩

/-- A plugin declaring no dependencies (Python None). -/
def samplePluginNoDeps : AbstractPlugin Nat :=
  ⟨"Base64", "Decoder", "someone", none, none, none⟩

/-- A plugin that overrides run (with sampleRun) but not select. -/
def sampleRunOnlyPlugin : AbstractPlugin Nat :=
  ⟨"Base64", "Decoder", "someone", none, some sampleRun, none⟩

/-- The builder state name Base64, type Decoder, run sampleRun, with author,
select and title left unset. -/
def sampleBuilderC6 : Command.Builder Nat :=
  (((Command.Builder.new Nat).name "Base64").type "Decoder").run sampleRun

/-- The decoder produced by DecoderPlugin.init Nat (some Base64)
(some someone) none. -/
def sampleDecoder : DecoderPlugin Nat :=
  ⟨⟨"Base64", "Decoder", "someone", none, none, none⟩, none⟩

/-! ## Helper lemmas -/

theorem string_length_pos_iff_ne_empty (s : String) : 0 < s.length ↔ s ≠ "" := by
  constructor
  · intro h heq
    subst heq
    exact absurd h (by decide)
  · intro h
    cases s with
    | mk data =>
      cases data with
      | nil => exact absurd rfl h
      | cons c cs => simp [String.length]

theorem typeOk_iff_mem (t : Option String) :
    AbstractPlugin.typeOk t = true ↔
      t ∈ [some Command.Type.DECODER, some Command.Type.ENCODER,
           some Command.Type.HASHER, some Command.Type.SCRIPT] := by
  simp [AbstractPlugin.typeOk, List.mem_cons, or_assoc]

/-- The dependency loop of check_dependencies is the filter of the failing
dependencies. -/
theorem check_foldl_eq_filter (importModule : String → Except String Unit)
    (l : List String) (acc : List String) :
    l.foldl (fun acc d =>
      match importModule d with
      | .ok _ => acc
      | .error _ => acc ++ [d]) acc
    = acc ++ l.filter (fun d => !(importModule d).isOk) := by
  induction l generalizing acc with
  | nil => simp
  | cons d l ih =>
    cases h : importModule d with
    | ok u =>
      simp [List.foldl_cons, h, ih, List.filter_cons, Except.isOk,
        Except.toBool]
    | error e =>
      simp [List.foldl_cons, h, ih, List.filter_cons, Except.isOk,
        Except.toBool]

/-- The token loop of _run_lines is the map of the callback over the filter
of the non-empty tokens. -/
theorem token_foldl_eq_filter_map (cb : String → String)
    (parts : List String) (acc : List String) :
    parts.foldl (fun result p =>
      if p.length > 0 then result ++ [cb p] else result) acc
    = acc ++ (parts.filter (fun p => p ≠ "")).map cb := by
  induction parts generalizing acc with
  | nil => simp
  | cons p parts ih =>
    by_cases hp : p = ""
    · subst hp
      simp [List.foldl_cons, ih, List.filter_cons]
    · have hlen : 0 < p.length := (string_length_pos_iff_ne_empty p).mpr hp
      simp [List.foldl_cons, ih, List.filter_cons, hp, hlen]

/-- The line loop of _run_lines is a map over the lines. -/
theorem line_foldl_eq_map (cb : String → String) (lines : List String)
    (acc : List String) :
    lines.foldl (fun ls l => ls ++ [String.intercalate " "
        (((pySplitSpace l).filter (fun p => p ≠ "")).map cb)]) acc
      = acc ++ lines.map (fun l => String.intercalate " "
        (((pySplitSpace l).filter (fun p => p ≠ "")).map cb)) := by
  induction lines generalizing acc with
  | nil => simp
  | cons l lines ih =>
    rw [List.foldl_cons, ih]
    simp

theorem abstractPlugin_init_ok (σ : Type) (nm ty au : Option String)
    (dp : Option (List String)) (q : AbstractPlugin σ)
    (h : AbstractPlugin.init σ nm ty au dp = .ok q) :
    q._name = nm.getD "" ∧ q._type = ty.getD "" ∧ q._author = au.getD "" ∧
    q._dependencies = dp ∧ q.runOverride = none ∧ q.selectOverride = none := by
  unfold AbstractPlugin.init at h
  split at h
  · split at h
    · split at h
      · injection h with h
        subst h
        exact ⟨rfl, rfl, rfl, rfl, rfl, rfl⟩
      · exact Except.noConfusion h
    · exact Except.noConfusion h
  · exact Except.noConfusion h

/-! ## The claims -/

/-- C1: two Commands, and likewise two AbstractPlugins, compare equal and
have identical hashes (for the process's hash function H on keys) if and only
if both their name and their type match; the author field and the behavior
hooks do not occur in the key, so objects agreeing on name and type but
differing in author or hooks are equal and hash identically. -/
theorem command_and_plugin_identity_iff_name_type : ∀ (σ : Type),
    (∀ (H : Option String × Option String → Nat) (x y : Command σ),
      (Command.eq x y = true ∧ Command.hashWith H x = Command.hashWith H y) ↔
        (x._name = y._name ∧ x._type = y._type))
  ∧ (∀ (H : String × String → Nat) (p q : AbstractPlugin σ),
      (AbstractPlugin.eq p q = true ∧
        AbstractPlugin.hashWith H p = AbstractPlugin.hashWith H q) ↔
        (p._name = q._name ∧ p._type = q._type)) := by
  intro σ
  constructor
  · intro H x y
    constructor
    · rintro ⟨he, -⟩
      have hk : x.key = y.key := by simpa [Command.eq] using he
      exact ⟨congrArg Prod.fst hk, congrArg Prod.snd hk⟩
    · rintro ⟨h1, h2⟩
      have hk : x.key = y.key := by simp [Command.key, h1, h2]
      exact ⟨by simp [Command.eq, hk], by simp [Command.hashWith, hk]⟩
  · intro H p q
    constructor
    · rintro ⟨he, -⟩
      have hk : p.key = q.key := by simpa [AbstractPlugin.eq] using he
      exact ⟨congrArg Prod.fst hk, congrArg Prod.snd hk⟩
    · rintro ⟨h1, h2⟩
      have hk : p.key = q.key := by simp [AbstractPlugin.key, h1, h2]
      exact ⟨by simp [AbstractPlugin.eq, hk],
             by simp [AbstractPlugin.hashWith, hk]⟩

/-- C2: for every non-empty name, any type, author and run hook, building
through the builder succeeds and the Command's name, type and author
accessors return exactly the values given to the builder; with the author
setter never called, build still succeeds and the author stays None — the
empty author of a custom command. -/
theorem builder_build_returns_inputs (σ : Type) (n t a : String)
    (run : Callable σ PyVal) (hn : 0 < n.length) :
    (∃ c : Command σ,
      (((((Command.Builder.new σ).name n).type t).author a).run run).build
        = .ok c
      ∧ c.name = some n ∧ c.type = some t ∧ c.author = some a)
  ∧ (∃ c : Command σ,
      ((((Command.Builder.new σ).name n).type t).run run).build = .ok c
      ∧ c.name = some n ∧ c.type = some t ∧ c.author = none) := by
  constructor
  · refine ⟨⟨some n, some t, some a, Command.Builder.defaultTitle n t, run,
      Command.Builder.defaultSelect run⟩, ?_, rfl, rfl, rfl⟩
    simp [Command.Builder.build, Command.Builder.new, Command.Builder.name,
      Command.Builder.type, Command.Builder.author, Command.Builder.run, hn]
  · refine ⟨⟨some n, some t, none, Command.Builder.defaultTitle n t, run,
      Command.Builder.defaultSelect run⟩, ?_, rfl, rfl, rfl⟩
    simp [Command.Builder.build, Command.Builder.new, Command.Builder.name,
      Command.Builder.type, Command.Builder.run, hn]

/-- Witness for C2 at name Base64, type Decoder, author someone and the
sample run hook. -/
theorem builder_build_returns_inputs_witness :
    (∃ c : Command Nat,
      (((((Command.Builder.new Nat).name "Base64").type "Decoder").author
        "someone").run sampleRun).build = .ok c
      ∧ c.name = some "Base64" ∧ c.type = some "Decoder" ∧
        c.author = some "someone")
  ∧ (∃ c : Command Nat,
      ((((Command.Builder.new Nat).name "Base64").type "Decoder").run
        sampleRun).build = .ok c
      ∧ c.name = some "Base64" ∧ c.type = some "Decoder" ∧
        c.author = none) :=
  builder_build_returns_inputs Nat "Base64" "Decoder" "someone" sampleRun
    (by decide)

/-- C3: Command.Builder.build fails whenever the name is unset or empty, the
type is unset, or the run hook is unset; the AbstractPlugin constructor fails
whenever the name is None or empty, the author is None or empty, or the type
is not one of the four recognized tags. -/
theorem construction_fails_on_violated_preconditions (σ : Type) :
    (∀ b : Command.Builder σ,
      (b._name = none ∨ b._name = some "" ∨ b._type = none ∨
        b._run_method = none) →
      ∃ e, b.build = .error e)
  ∧ (∀ (name type author : Option String) (deps : Option (List String)),
      (name = none ∨ name = some "" ∨ author = none ∨ author = some "" ∨
        type ∉ [some Command.Type.DECODER, some Command.Type.ENCODER,
                some Command.Type.HASHER, some Command.Type.SCRIPT]) →
      ∃ e, AbstractPlugin.init σ name type author deps = .error e) := by
  constructor
  · intro b h
    unfold Command.Builder.build
    cases hn : b._name with
    | none => exact ⟨_, rfl⟩
    | some n =>
      by_cases hlen : 0 < n.length
      · rw [hn] at h
        rcases h with h | h | h | h
        · exact Option.noConfusion h
        · injection h with h
          subst h
          exact absurd hlen (by decide)
        · exact ⟨"Type is required and should not be None.",
            by simp [hlen, h]⟩
        · cases ht : b._type with
          | none => exact ⟨"Type is required and should not be None.",
              by simp [hlen, ht]⟩
          | some t =>
            exact ⟨"Run method or run source is required and should not be None.",
              by simp [hlen, ht, h]⟩
      · exact ⟨"Name is required and should not be None or Empty.",
          by simp [hlen]⟩
  · intro name type author deps h
    unfold AbstractPlugin.init
    cases hn : pyNonEmpty name with
    | false =>
      exact ⟨"Name is required and should not be None or Empty",
        by rw [if_neg (by simp [hn])]⟩
    | true =>
      cases ht : AbstractPlugin.typeOk type with
      | false =>
        exact ⟨"Type is required and should be either 'DECODER', 'ENCODER', 'HASHER' or 'SCRIPT'",
          by rw [if_pos (by simp [hn]), if_neg (by simp [ht])]⟩
      | true =>
        cases ha : pyNonEmpty author with
        | false =>
          exact ⟨"Author is required and should not be None or Empty",
            by rw [if_pos (by simp [hn]), if_pos (by simp [ht]),
              if_neg (by simp [ha])]⟩
        | true =>
          exfalso
          rcases h with h | h | h | h | h
          · rw [h] at hn
            exact Bool.noConfusion hn
          · rw [h] at hn
            simp [pyNonEmpty] at hn
          · rw [h] at ha
            exact Bool.noConfusion ha
          · rw [h] at ha
            simp [pyNonEmpty] at ha
          · exact h ((typeOk_iff_mem type).mp ht)

/-- Witness for C3: an all-unset builder fails, and a plugin with the
unrecognized type Nope fails. -/
theorem construction_fails_witness :
    (∃ e, (Command.Builder.new Nat).build = .error e)
  ∧ (∃ e, AbstractPlugin.init Nat (some "Base64") (some "Nope")
      (some "someone") none = .error e) :=
  ⟨(construction_fails_on_violated_preconditions Nat).1
      (Command.Builder.new Nat) (Or.inl rfl),
   (construction_fails_on_violated_preconditions Nat).2
      (some "Base64") (some "Nope") (some "someone") none
      (Or.inr (Or.inr (Or.inr (Or.inr (by decide)))))⟩

/-- C4: check_dependencies never raises (it is total and returns a plain
list); it returns exactly the subsequence of the declared dependencies whose
resolution fails — the order-preserving filter of the declared list — and it
returns the empty list when no dependencies are declared (None or the empty
list) or when every dependency resolves.  Each resolution failure shows up as
a name in the result instead of propagating. -/
theorem check_dependencies_reports_unresolved_in_order (σ : Type)
    (importModule : String → Except String Unit) (p : AbstractPlugin σ) :
    AbstractPlugin.check_dependencies importModule p
      = (p._dependencies.getD []).filter (fun d => !(importModule d).isOk)
  ∧ List.Sublist (AbstractPlugin.check_dependencies importModule p)
      (p._dependencies.getD [])
  ∧ (p._dependencies = none →
      AbstractPlugin.check_dependencies importModule p = [])
  ∧ ((∀ d ∈ p._dependencies.getD [], (importModule d).isOk = true) →
      AbstractPlugin.check_dependencies importModule p = []) := by
  have hmain : AbstractPlugin.check_dependencies importModule p
      = (p._dependencies.getD []).filter (fun d => !(importModule d).isOk) := by
    unfold AbstractPlugin.check_dependencies
    cases hd : p._dependencies with
    | none => rfl
    | some deps =>
      cases deps with
      | nil => rfl
      | cons d ds =>
        simp only [List.isEmpty_cons, Option.getD_some]
        exact (check_foldl_eq_filter importModule (d :: ds) []).trans
          (by simp)
  refine ⟨hmain, ?_, ?_, ?_⟩
  · rw [hmain]
    exact List.filter_sublist _
  · intro hd
    rw [hmain, hd]
    rfl
  · intro hall
    rw [hmain]
    rw [List.filter_eq_nil_iff]
    intro d hd
    simp [hall d hd]

/-- Witness for C4: with a resolver that only resolves real_module, a plugin
declaring [real_module, nonexistent_xyz] reports exactly [nonexistent_xyz],
and a plugin declaring no dependencies reports nothing. -/
theorem check_dependencies_witness :
    AbstractPlugin.check_dependencies sampleResolver samplePluginDeps
      = ["nonexistent_xyz"]
  ∧ AbstractPlugin.check_dependencies sampleResolver samplePluginNoDeps
      = [] :=
  ⟨(check_dependencies_reports_unresolved_in_order Nat sampleResolver
      samplePluginDeps).1.trans (by decide),
   (check_dependencies_reports_unresolved_in_order Nat sampleResolver
      samplePluginNoDeps).2.2.1 rfl⟩

/-- C5 counterexample: _run_lines does not split lines into
whitespace-separated tokens.  On the input with a tab between A and B the
code keeps the tab inside a single token and returns the text unchanged,
while splitting on whitespace — what the claim states — would separate the
two letters and rejoin them with a single space. -/
theorem run_lines_whitespace_counterexample :
    AbstractPlugin._run_lines "\n" "A\tB" (fun s => s) = "A\tB"
  ∧ run_lines_specWs "\n" "A\tB" (fun s => s) = "A B"
  ∧ AbstractPlugin._run_lines "\n" "A\tB" (fun s => s)
      ≠ run_lines_specWs "\n" "A\tB" (fun s => s) :=
  ⟨by decide, by decide, by decide⟩

/-- C5 amended: _run_lines splits the text into lines, splits each line into
tokens on the space character only (other whitespace, such as a tab, stays
inside a token), applies the callback to each non-empty token, and rejoins
the tokens with single spaces and the lines with the platform line
separator; empty tokens are dropped, so consecutive spaces collapse to one.
The concrete conjuncts check the claim's examples: the two-line,
two-then-one-token structure of AB CD\nEF survives a per-token transform,
and A  B becomes the single-space-joined A B. -/
theorem run_lines_space_token_characterization (linesep text : String)
    (cb : String → String) :
    AbstractPlugin._run_lines linesep text cb
      = String.intercalate linesep ((pySplitlines text).map (fun line =>
          String.intercalate " "
            (((pySplitSpace line).filter (fun p => p ≠ "")).map cb)))
  ∧ AbstractPlugin._run_lines "\n" "AB CD\nEF"
      (fun s => String.mk (s.toList.map Char.toLower)) = "ab cd\nef"
  ∧ AbstractPlugin._run_lines "\n" "A  B" (fun s => s) = "A B" := by
  refine ⟨?_, by decide, by decide⟩
  unfold AbstractPlugin._run_lines
  congr 1
  rw [List.foldl_ext _
    (fun ls l => ls ++ [String.intercalate " "
      (((pySplitSpace l).filter (fun p => p ≠ "")).map cb)]) []
    (fun ls l _ => by
      show ls ++ _ = ls ++ _
      rw [token_foldl_eq_filter_map cb (pySplitSpace l) [],
        List.nil_append])]
  rw [line_foldl_eq_map cb (pySplitlines text) [], List.nil_append]

/-- C6: a builder without a select hook builds a Command whose select hook
performs the run hook's world effect on the given positional input and
returns None, discarding the run hook's result; a builder without a title
hook builds a Command whose title hook returns the name, a space, and the
capitalized type — exactly the fixed format AbstractPlugin.title returns for
a plugin of the same name and type. -/
theorem build_supplies_default_select_and_title (σ : Type)
    (b : Command.Builder σ) (n t : String) (run : Callable σ PyVal)
    (hname : b._name = some n) (hlen : 0 < n.length) (htype : b._type = some t)
    (hrun : b._run_method = some run) (hsel : b._select_method = none)
    (httl : b._title_method = none) :
    ∃ c : Command σ, b.build = .ok c
      ∧ c._run_method = run
      ∧ (∀ args kwargs s, c._select_method args kwargs s
          = ((run args [] s).1, none))
      ∧ (∀ s, c._title_method s = (s, n ++ " " ++ pyCapitalize t))
      ∧ (∀ p : AbstractPlugin σ, p._name = n → p._type = t →
          AbstractPlugin.title p = n ++ " " ++ pyCapitalize t) := by
  refine ⟨⟨some n, some t, b._author, Command.Builder.defaultTitle n t, run,
    Command.Builder.defaultSelect run⟩, ?_, rfl, ?_, ?_, ?_⟩
  · unfold Command.Builder.build
    rw [hname, htype, hrun, hsel, httl]
    simp [hlen]
  · intro args kwargs s
    rfl
  · intro s
    rfl
  · intro p h1 h2
    rw [AbstractPlugin.title, h1, h2]

/-- Witness for C6: the builder with name Base64, type Decoder and the sample
run hook, select and title left unset, yields the default select and the
title Base64 Decoder. -/
theorem build_defaults_witness :
    ∃ c : Command Nat, sampleBuilderC6.build = .ok c
      ∧ (∀ args kwargs s, c._select_method args kwargs s
          = ((sampleRun args [] s).1, none))
      ∧ (∀ s, c._title_method s = (s, "Base64 Decoder")) := by
  obtain ⟨c, h1, hr, h2, h3, -⟩ := build_supplies_default_select_and_title Nat
    sampleBuilderC6 "Base64" "Decoder" sampleRun rfl (by decide) rfl rfl rfl rfl
  refine ⟨c, h1, fun args kwargs s => by rw [h2 args kwargs s],
    fun s => (h3 s).trans (congrArg (Prod.mk s) (by decide))⟩

/-- C7: calling run on a plugin that does not override it yields the
NotImplementedError fault for every input; the base select forwards the
positional arguments to run and returns its result, so a plugin that
overrides run but not select has select agree with run on the same
arguments. -/
theorem abstract_run_raises_and_select_forwards (σ : Type)
    (p : AbstractPlugin σ) :
    (p.runOverride = none → ∀ (args : Args) (kwargs : Kwargs) (s : σ),
      p.run args kwargs s
        = .error "Method must be implemented from upper class")
  ∧ (p.selectOverride = none → ∀ (args : Args) (kwargs : Kwargs) (s : σ),
      p.select args kwargs s = p.run args [] s)
  ∧ (∀ f, p.runOverride = some f → p.selectOverride = none →
      ∀ (input : String) (s : σ),
        p.select [input] [] s = p.run [input] [] s
        ∧ p.run [input] [] s = .ok (f [input] [] s)) := by
  refine ⟨?_, ?_, ?_⟩
  · intro h args kwargs s
    rw [AbstractPlugin.run, h]
  · intro h args kwargs s
    rw [AbstractPlugin.select, h]
  · intro f hf hs input s
    constructor
    · rw [AbstractPlugin.select, hs]
    · rw [AbstractPlugin.run, hf]

/-- Witness for C7: the sample plugin with no overrides raises from run, and
the sample plugin overriding only run has select equal to run. -/
theorem abstract_run_select_witness :
    samplePluginNoDeps.run ["x"] [] 0
      = .error "Method must be implemented from upper class"
  ∧ sampleRunOnlyPlugin.select ["x"] [] 0 = sampleRunOnlyPlugin.run ["x"] [] 0 :=
  ⟨(abstract_run_raises_and_select_forwards Nat samplePluginNoDeps).1
      rfl ["x"] [] 0,
   ((abstract_run_raises_and_select_forwards Nat sampleRunOnlyPlugin).2.2
      sampleRun rfl rfl "x" 0).1⟩

/-- C8: every decoder built through the DecoderPlugin constructor has type
Decoder — the constructor offers no type parameter and forces the tag — and,
with no override, its can_be_decoded returns false on every input. -/
theorem decoder_plugin_type_forced_and_probe_false (σ : Type)
    (name author : Option String) (deps : Option (List String))
    (p : DecoderPlugin σ)
    (h : DecoderPlugin.init σ name author deps = .ok p) :
    p.toAbstractPlugin.type = "Decoder"
    ∧ p.canBeDecodedOverride = none
    ∧ ∀ input, p.can_be_decoded input = false := by
  unfold DecoderPlugin.init at h
  cases he : AbstractPlugin.init σ name (some Command.Type.DECODER) author
      deps with
  | error e =>
    rw [he] at h
    exact Except.noConfusion h
  | ok q =>
    rw [he] at h
    injection h with h
    subst h
    obtain ⟨-, hty, -, -, -, -⟩ :=
      abstractPlugin_init_ok σ name (some Command.Type.DECODER) author deps
        q he
    exact ⟨hty, rfl, fun input => rfl⟩

/-- Witness for C8 at name Base64, author someone, no dependencies. -/
theorem decoder_plugin_witness :
    sampleDecoder.toAbstractPlugin.type = "Decoder"
    ∧ sampleDecoder.canBeDecodedOverride = none
    ∧ ∀ input, sampleDecoder.can_be_decoded input = false :=
  decoder_plugin_type_forced_and_probe_false Nat (some "Base64")
    (some "someone") none sampleDecoder rfl

/-- C9: NullCommand's run and select leave the world unchanged and return
None for every input (no observable effect, no exception in the model's
total semantics), and its name, type and author are all the empty string. -/
theorem null_command_noop (σ : Type) (args : Args) (kwargs : Kwargs) (s : σ) :
    (NullCommand σ).run args kwargs s = (s, none)
  ∧ (NullCommand σ).select args kwargs s = (s, none)
  ∧ (NullCommand σ).name = some ""
  ∧ (NullCommand σ).type = some ""
  ∧ (NullCommand σ).author = some "" :=
  ⟨rfl, rfl, rfl, rfl, rfl⟩

/-- C10: Command.run and Command.select accept keyword arguments but discard
them: the stored hook is invoked with the positional arguments and an empty
keyword dictionary, so the result never depends on the keyword arguments;
the builder's default select likewise forwards only its positional arguments
to the run hook. -/
theorem run_select_discard_kwargs (σ : Type) (c : Command σ) (args : Args)
    (kwargs kwargs' : Kwargs) (s : σ) :
    c.run args kwargs s = c._run_method args [] s
  ∧ c.run args kwargs s = c.run args kwargs' s
  ∧ c.select args kwargs s = c._select_method args [] s
  ∧ c.select args kwargs s = c.select args kwargs' s
  ∧ (∀ run : Callable σ PyVal,
      Command.Builder.defaultSelect run args kwargs s
        = ((run args [] s).1, none)) :=
  ⟨rfl, rfl, rfl, rfl, fun _ => rfl⟩
